import Mathlib

/-
Shallow embedding of the image-conversion HTTP service (src/src/main.rs).

The service state is the process-wide task counter (an i32, modelled as an
integer reduced by toI32 at each operation, matching the two-complement wrap
of release builds) together with a filesystem, modelled as an association
list from path strings to file data.  File data is either raw bytes (not a
decodable image) or an encoded image carrying a format tag and a bitmap;
decoding succeeds exactly on encoded images, matching the image crate,
which sniffs content rather than trusting extensions.  Handlers are pure
functions from state and request data to a response, the new counter and
the new filesystem; convert_image additionally returns the list of
filesystem and codec events it performed, in order, so that claims about
which operations happen (open, decode, resize, write) are statable.

The one external-library routine with arithmetic content, the thumbnail
resize of the image crate, is modelled from its source (resize_dimensions
with fill set to false): ratios are taken in exact rational arithmetic in
place of f64, with round-half-up rounding, which agrees with the f64
computation on all inputs used in the theorems below; the saturating cast
to u64 before the comparison against the u32 maximum is dropped, as both
sides are far below every bound involved here.
-/

namespace ImgService

/-- A bitmap held in memory after decoding: dimensions plus an abstract
payload standing for the pixel data. -/
structure Bitmap where
  width : Nat
  height : Nat
  data : Nat
deriving DecidableEq

/-- Contents of a file on disk: either raw bytes that no image codec
accepts, or an encoded image with its format tag and decoded bitmap. -/
inductive FileData
  | raw (bytes : List Nat)
  | image (fmt : String) (bmp : Bitmap)
deriving DecidableEq

/-- The filesystem: an association list from paths to file data. -/
abbrev FS := List (String × FileData)

def lookupFile : FS → String → Option FileData
  | [], _ => none
  | (p, d) :: rest, q => if p = q then some d else lookupFile rest q

/-- Writing a file: replaces any previous file at the same path. -/
def setFile (fs : FS) (p : String) (d : FileData) : FS :=
  (p, d) :: fs.filter (fun e => e.1 ≠ p)

/-- Decoding file contents, as the image crate does: raw bytes fail, an
encoded image yields its bitmap. -/
def decodeFile : FileData → Option Bitmap
  | .raw _ => none
  | .image _ b => some b

/-- Splits a character list at slashes; structural counterpart of
String.splitOn applied to the slash separator. -/
def splitSlashAux : List Char → List Char → List String
  | [], acc => [String.mk acc.reverse]
  | c :: cs, acc =>
      if c = '/' then String.mk acc.reverse :: splitSlashAux cs []
      else splitSlashAux cs (c :: acc)

/-- Path components of a string: pieces between slashes. -/
def pathComps (s : String) : List String := splitSlashAux s.toList []

/-- Index of the last occurrence of a character in a list, if any. -/
def lastIdxOf (c : Char) : List Char → Option Nat
  | [] => none
  | x :: xs =>
    match lastIdxOf c xs with
    | some i => some (i + 1)
    | none => if x = c then some 0 else none

/-- Rust Path file_stem applied to a file name component: the whole name if
it contains no dot or only a leading dot, otherwise the part before the
last dot. -/
def stemOfName (name : String) : String :=
  match lastIdxOf '.' name.toList with
  | none => name
  | some 0 => name
  | some i => String.mk (name.toList.take i)

/-- Rust Path file_name: the last path component after dropping empty and
current-directory components; none when the path is empty or ends in a
parent-directory component. -/
def rustFileName (s : String) : Option String :=
  let comps := (pathComps s).filter (fun c => c != "" && c != ".")
  match comps.getLast? with
  | none => none
  | some c => if c = ".." then none else some c

/-- Rust Path file_stem on a path string. -/
def rustFileStem (s : String) : Option String :=
  (rustFileName s).map stemOfName

/-- Result of the output namer.  The source calls unwrap on file_stem, so a
filename with no usable stem makes the handler panic; there is no error
return at all. -/
inductive NamerOutcome
  | panicked
  | named (path : String)
deriving DecidableEq

/-- generate_output_filepath from the source (main.rs lines 72-75): joins
the downloads root with the string stem_taskid.format, panicking (unwrap)
when file_stem is none. -/
def generate_output_filepath (filename : String) (output_format : String) (task_id : ℤ) :
    NamerOutcome :=
  match rustFileStem filename with
  | none => .panicked
  | some stem =>
      .named ("downloads/" ++ stem ++ "_" ++ toString task_id ++ "." ++ output_format)

/-- Reduction of an unbounded integer to the i32 value with the same
32-bit two-complement representation. -/
def toI32 (n : ℤ) : ℤ := (n + 2147483648) % 4294967296 - 2147483648

/-- One allocation (main.rs lines 51-53): the code reads the counter, adds
one in i32 arithmetic, stores the result back and uses it as the task id.
Returns (new counter, issued id); the two coincide. -/
def next_id (c : ℤ) : ℤ × ℤ :=
  let id := toI32 (c + 1)
  (id, id)

/-- Counter value after n allocations from the initial value 0 set in main. -/
def counterAfter : Nat → ℤ
  | 0 => 0
  | n + 1 => (next_id (counterAfter n)).1

/-- The ids issued by the first n allocations, in order. -/
def allocIds (n : Nat) : List ℤ :=
  (List.range n).map (fun k => (next_id (counterAfter k)).2)

/-- The resize_dimensions helper of the image crate with fill set to false,
as invoked by DynamicImage.thumbnail: the target is the maximum size that
fits the given bounding box while preserving the aspect ratio.  The f64
ratios are modelled as exact rationals with round-half-up rounding. -/
def resize_dimensions (width height nwidth nheight : Nat) : Nat × Nat :=
  let wratio : ℚ := (nwidth : ℚ) / (width : ℚ)
  let hratio : ℚ := (nheight : ℚ) / (height : ℚ)
  let ratio : ℚ := min wratio hratio
  let nw : Nat := max (round ((width : ℚ) * ratio)).toNat 1
  let nh : Nat := max (round ((height : ℚ) * ratio)).toNat 1
  if 4294967295 < nw then
    let ratio2 : ℚ := 4294967295 / (width : ℚ)
    (4294967295, max (round ((height : ℚ) * ratio2)).toNat 1)
  else if 4294967295 < nh then
    let ratio2 : ℚ := 4294967295 / (height : ℚ)
    (max (round ((width : ℚ) * ratio2)).toNat 1, 4294967295)
  else
    (nw, nh)

/-- DynamicImage.thumbnail of the image crate: picks the dimensions with
resize_dimensions and samples the bitmap to that size; the pixel payload is
kept abstract. -/
def thumbnail (b : Bitmap) (nwidth nheight : Nat) : Bitmap :=
  let d := resize_dimensions b.width b.height nwidth nheight
  ⟨d.1, d.2, b.data⟩

/-- The filesystem and codec actions convert_image can perform, in the
order it performs them. -/
inductive Ev
  | openInput
  | decodeInput
  | resizeIco
  | writeOutput
  | openOutput
  | decodeOutput
deriving DecidableEq

/-- The failure modes of convert_image, one per formatted error string the
source returns. -/
inductive ConvErr
  | openInputFailed
  | decodeFailed
  | unsupportedFormat
  | saveFailed
  | reopenFailed
deriving DecidableEq

/-- The formats of the save dispatch in convert_image, in source order. -/
def supportedFormats : List String := ["png", "jpg", "gif", "bmp", "webp", "ico", "tiff"]

/-- The formatted error strings of convert_image, cause payloads elided. -/
def errMsg : ConvErr → String
  | .openInputFailed => "Failed to open input image"
  | .decodeFailed => "Failed to decode image"
  | .unsupportedFormat => "Unsupported output format"
  | .saveFailed => "Image conversion failed"
  | .reopenFailed => "Failed to reopen output image"

/-- convert_image (main.rs lines 92-140): opens and decodes the input,
resizes when the target is ico, dispatches on the format string to encode
to the output path, then re-opens (without decoding) the output as a
validation step.  Returns the result, the new filesystem and the event
trace. -/
def convert_image (fs : FS) (input_file : String) (output_format : String)
    (output_file : String) : Except ConvErr Unit × FS × List Ev :=
  match lookupFile fs input_file with
  | none => (.error .openInputFailed, fs, [.openInput])
  | some fd =>
    match decodeFile fd with
    | none => (.error .decodeFailed, fs, [.openInput, .decodeInput])
    | some img0 =>
      let img := if output_format = "ico" then thumbnail img0 256 256 else img0
      let pre : List Ev :=
        if output_format = "ico" then [.openInput, .decodeInput, .resizeIco]
        else [.openInput, .decodeInput]
      if output_format ∈ supportedFormats then
        let fs2 := setFile fs output_file (.image output_format img)
        match lookupFile fs2 output_file with
        | some _ => (.ok (), fs2, pre ++ [.writeOutput, .openOutput])
        | none => (.error .reopenFailed, fs2, pre ++ [.writeOutput, .openOutput])
      else
        (.error .unsupportedFormat, fs, pre)

/-- Result of the download endpoint: the file served, or a 404. -/
inductive DownloadResult
  | file (d : FileData)
  | notFound
deriving DecidableEq

/-- serve_converted_image (main.rs lines 78-90): joins the requested name
against the downloads root; serves the file if the path exists, otherwise
a not-found error.  Returns the (unchanged) filesystem so that
read-onliness is statable. -/
def serve_converted_image (fs : FS) (filename : String) : DownloadResult × FS :=
  let path := "downloads/" ++ filename
  match lookupFile fs path with
  | some d => (.file d, fs)
  | none => (.notFound, fs)

/-- One part of a multipart body: an optional filename from the content
disposition, and the bytes carried. -/
structure Part where
  filename : Option String
  content : FileData
deriving DecidableEq

/-- The responses the upload endpoint can produce. -/
inductive Response
  | ok (task_id : ℤ) (converted_file : String)
  | badRequest (msg : String)
  | internalError (msg : String)
deriving DecidableEq

/-- Endpoint outcome: a response, or a panic of the handler task (the
unwrap in generate_output_filepath). -/
inductive EndpointOutcome
  | panic
  | resp (r : Response)
deriving DecidableEq

/-- The upload loop of convert_image_endpoint (main.rs lines 34-48): each
part with a filename is written under the uploads root and recorded as the
current file path and original filename; a part without a filename makes
the whole request return a bad-request response at once. -/
def writeParts : FS → Option String → String → List Part →
    FS × Except Response (Option String × String)
  | fs, file_path, original_filename, [] => (fs, .ok (file_path, original_filename))
  | fs, _, _, part :: rest =>
    match part.filename with
    | some name =>
        writeParts (setFile fs ("uploads/" ++ name) part.content)
          (some ("uploads/" ++ name)) name rest
    | none => (fs, .error (.badRequest "No filename provided in the request"))

/-- The file-name component of a path, as the unwrapped file_name call on
the freshly built output path. -/
def fileNameOfPath (p : String) : String := ((pathComps p).getLast?).getD ""

/-- The tail of convert_image_endpoint after the upload loop (main.rs
lines 50-64): allocate a task id, derive the output path (panicking when
the original filename has no stem), convert, and build the response. -/
def afterUpload (counter : ℤ) (fs : FS) (input_file_path : String)
    (original_filename : String) (output_format : String) :
    EndpointOutcome × ℤ × FS :=
  let task_id := (next_id counter).2
  let counter2 := (next_id counter).1
  match generate_output_filepath original_filename output_format task_id with
  | .panicked => (.panic, counter2, fs)
  | .named output_file_path =>
    match convert_image fs input_file_path output_format output_file_path with
    | (.ok _, fs2, _) =>
        (.resp (.ok task_id ("/download/" ++ fileNameOfPath output_file_path)), counter2, fs2)
    | (.error e, fs2, _) =>
        (.resp (.internalError ("Conversion failed: " ++ errMsg e)), counter2, fs2)

/-- convert_image_endpoint (main.rs lines 24-69): run the upload loop, then
either report the missing file, or allocate an id and convert. -/
def convert_image_endpoint (counter : ℤ) (fs : FS) (parts : List Part)
    (output_format : String) : EndpointOutcome × ℤ × FS :=
  match writeParts fs none "" parts with
  | (fs1, .error r) => (.resp r, counter, fs1)
  | (fs1, .ok (none, _)) => (.resp (.badRequest "No file uploaded"), counter, fs1)
  | (fs1, .ok (some input_file_path, original_filename)) =>
      afterUpload counter fs1 input_file_path original_filename output_format

/-! ## Helper lemmas -/

theorem lookupFile_setFile_self (fs : FS) (p : String) (d : FileData) :
    lookupFile (setFile fs p d) p = some d := by
  simp [setFile, lookupFile]

theorem toI32_eq_self {n : ℤ} (h0 : -2147483648 ≤ n) (h1 : n < 2147483648) :
    toI32 n = n := by
  unfold toI32
  omega

theorem toI32_toI32_add_one (n : ℤ) : toI32 (toI32 n + 1) = toI32 (n + 1) := by
  unfold toI32
  omega

theorem counterAfter_eq (n : Nat) : counterAfter n = toI32 (n : ℤ) := by
  induction n with
  | zero =>
      show (0 : ℤ) = toI32 0
      unfold toI32
      decide
  | succ k ih =>
      show (next_id (counterAfter k)).1 = toI32 ((k + 1 : Nat) : ℤ)
      rw [ih]
      show toI32 (toI32 (k : ℤ) + 1) = toI32 ((k + 1 : Nat) : ℤ)
      rw [toI32_toI32_add_one]
      push_cast
      rfl

theorem round_le_256 {q : ℚ} (h : q ≤ 256) : round q ≤ 256 := by
  rw [round_eq]
  have h2 : q + 1 / 2 ≤ (256 : ℚ) + 1 / 2 := by linarith
  have h3 := Int.floor_le_floor h2
  have h4 : ⌊(256 : ℚ) + 1 / 2⌋ = 256 := by
    rw [Int.floor_eq_iff]
    norm_num
  omega

theorem resize_dimensions_le (w h : Nat) (hw : 1 ≤ w) (hh : 1 ≤ h) :
    (resize_dimensions w h 256 256).1 ≤ 256 ∧ (resize_dimensions w h 256 256).2 ≤ 256 := by
  have hw1 : (1 : ℚ) ≤ (w : ℚ) := by exact_mod_cast hw
  have hh1 : (1 : ℚ) ≤ (h : ℚ) := by exact_mod_cast hh
  have hwq : (0 : ℚ) < (w : ℚ) := by linarith
  have hhq : (0 : ℚ) < (h : ℚ) := by linarith
  have key1 : (w : ℚ) * min ((256 : ℚ) / (w : ℚ)) ((256 : ℚ) / (h : ℚ)) ≤ 256 := by
    have hle : (w : ℚ) * min ((256 : ℚ) / (w : ℚ)) ((256 : ℚ) / (h : ℚ)) ≤
        (w : ℚ) * ((256 : ℚ) / (w : ℚ)) :=
      mul_le_mul_of_nonneg_left (min_le_left _ _) (le_of_lt hwq)
    have hcan : (w : ℚ) * ((256 : ℚ) / (w : ℚ)) = 256 := by
      field_simp
    linarith
  have key2 : (h : ℚ) * min ((256 : ℚ) / (w : ℚ)) ((256 : ℚ) / (h : ℚ)) ≤ 256 := by
    have hle : (h : ℚ) * min ((256 : ℚ) / (w : ℚ)) ((256 : ℚ) / (h : ℚ)) ≤
        (h : ℚ) * ((256 : ℚ) / (h : ℚ)) :=
      mul_le_mul_of_nonneg_left (min_le_right _ _) (le_of_lt hhq)
    have hcan : (h : ℚ) * ((256 : ℚ) / (h : ℚ)) = 256 := by
      field_simp
    linarith
  have r1 := round_le_256 key1
  have r2 := round_le_256 key2
  have n1 : (round ((w : ℚ) * min ((256 : ℚ) / (w : ℚ)) ((256 : ℚ) / (h : ℚ)))).toNat ≤ 256 := by
    omega
  have n2 : (round ((h : ℚ) * min ((256 : ℚ) / (w : ℚ)) ((256 : ℚ) / (h : ℚ)))).toNat ≤ 256 := by
    omega
  have m1 : max (round ((w : ℚ) * min ((256 : ℚ) / (w : ℚ)) ((256 : ℚ) / (h : ℚ)))).toNat 1 ≤ 256 := by
    omega
  have m2 : max (round ((h : ℚ) * min ((256 : ℚ) / (w : ℚ)) ((256 : ℚ) / (h : ℚ)))).toNat 1 ≤ 256 := by
    omega
  unfold resize_dimensions
  simp only [Nat.cast_ofNat]
  rw [if_neg (by omega), if_neg (by omega)]
  exact ⟨m1, m2⟩

theorem thumbnail_le (b : Bitmap) (hw : 1 ≤ b.width) (hh : 1 ≤ b.height) :
    (thumbnail b 256 256).width ≤ 256 ∧ (thumbnail b 256 256).height ≤ 256 :=
  resize_dimensions_le b.width b.height hw hh

theorem resize_dimensions_128 : resize_dimensions 128 128 256 256 = (256, 256) := by
  unfold resize_dimensions
  norm_num [round_eq]
  rfl

theorem thumbnail_128 : thumbnail ⟨128, 128, 0⟩ 256 256 = ⟨256, 256, 0⟩ := by
  unfold thumbnail
  rw [resize_dimensions_128]

theorem writeParts_err (parts : List Part) :
    ∀ fs fp orig, (∃ p ∈ parts, p.filename = none) →
      (writeParts fs fp orig parts).2 =
        .error (.badRequest "No filename provided in the request") := by
  induction parts with
  | nil =>
      rintro fs fp orig ⟨p, hp, _⟩
      cases hp
  | cons q rest ih =>
      rintro fs fp orig ⟨p, hp, hnone⟩
      cases hq : q.filename with
      | none => simp [writeParts, hq]
      | some name =>
          rcases List.mem_cons.mp hp with heq | hmem
          · rw [heq] at hnone; rw [hq] at hnone; cases hnone
          · simp only [writeParts, hq]
            exact ih _ _ _ ⟨p, hmem, hnone⟩

theorem writeParts_all_some (parts : List Part) :
    ∀ fs fp orig pl nm, parts.getLast? = some pl → pl.filename = some nm →
      (∀ p ∈ parts, (p.filename).isSome) →
      writeParts fs fp orig parts =
        (parts.foldl (fun a p => setFile a ("uploads/" ++ (p.filename).getD "") p.content) fs,
         .ok (some ("uploads/" ++ nm), nm)) := by
  induction parts with
  | nil =>
      intro fs fp orig pl nm hlast _ _
      cases hlast
  | cons q rest ih =>
      intro fs fp orig pl nm hlast hnm hall
      have hq : (q.filename).isSome := hall q (List.mem_cons_self q rest)
      obtain ⟨qn, hqn⟩ := Option.isSome_iff_exists.mp hq
      cases rest with
      | nil =>
          have hpl : q = pl := by
            simpa using hlast
          subst hpl
          have hqnm : qn = nm := by
            rw [hqn] at hnm
            exact Option.some.inj hnm
          subst hqnm
          simp [writeParts, hqn]
      | cons r rest2 =>
          have hlast2 : (r :: rest2).getLast? = some pl := by
            rwa [List.getLast?_cons_cons] at hlast
          simp only [writeParts, hqn, List.foldl_cons, Option.getD_some]
          exact ih (setFile fs ("uploads/" ++ qn) q.content) (some ("uploads/" ++ qn)) qn
            pl nm hlast2 hnm (fun p hp => hall p (List.mem_cons_of_mem q hp))

/-! ## Claim C1 -/

/-- C1 counterexample: with the unsupported target format txt, convert does
not fail with the unsupported-format error before touching the filesystem.
On an empty filesystem the input open is attempted and its failure is
reported instead of the unsupported format, and on a filesystem holding a
decodable input the trace shows the input opened and decoded before the
unsupported format is reported. -/
theorem c1_counterexample :
    convert_image [] "uploads/in.png" "txt" "downloads/out_1.txt" =
      (.error .openInputFailed, [], [.openInput]) ∧
    convert_image [("uploads/in.png", .image "png" ⟨4, 4, 0⟩)] "uploads/in.png" "txt"
        "downloads/out_1.txt" =
      (.error .unsupportedFormat, [("uploads/in.png", .image "png" ⟨4, 4, 0⟩)],
        [.openInput, .decodeInput]) := by
  constructor
  · rfl
  · rfl

/-- C1 (amended): for a target format outside the supported set, convert
first opens and decodes the input, failing with the corresponding error if
that fails; when the input decodes it fails with the unsupported-format
error.  In every case it writes no output file and leaves the filesystem
unchanged, and it never succeeds. -/
theorem c1_unsupported_format (fs : FS) (input output fmt : String)
    (hfmt : fmt ∉ supportedFormats) :
    (convert_image fs input fmt output).2.1 = fs ∧
    Ev.writeOutput ∉ (convert_image fs input fmt output).2.2 ∧
    (convert_image fs input fmt output).1 ≠ .ok () ∧
    (∀ b, (lookupFile fs input).bind decodeFile = some b →
      (convert_image fs input fmt output).1 = .error .unsupportedFormat) := by
  have hico : fmt ≠ "ico" := by
    intro e
    exact hfmt (by rw [e]; decide)
  unfold convert_image
  cases hin : lookupFile fs input with
  | none => simp
  | some fd =>
      cases hdec : decodeFile fd with
      | none => simp [hdec]
      | some b => simp [hdec, if_neg hico, if_neg hfmt]

/-- C1 witness: concrete run of the amended theorem with format txt and a
decodable png input. -/
theorem c1_witness :
    "txt" ∉ supportedFormats ∧
    (convert_image [("uploads/in.png", FileData.image "png" ⟨4, 4, 0⟩)] "uploads/in.png"
        "txt" "downloads/o").1 = .error .unsupportedFormat :=
  ⟨by decide,
   (c1_unsupported_format [("uploads/in.png", FileData.image "png" ⟨4, 4, 0⟩)]
      "uploads/in.png" "downloads/o" "txt" (by decide)).2.2.2 ⟨4, 4, 0⟩ rfl⟩

/-! ## Claim C2 -/

/-- C2 counterexample: on the empty filename, which has no usable stem, the
output namer panics (unwrap on a none file_stem) instead of failing with an
InvalidNameError; the source has no error return at all. -/
theorem c2_counterexample :
    rustFileStem "" = none ∧ generate_output_filepath "" "png" 1 = .panicked := by
  constructor
  · decide
  · decide

/-- C2 (amended): the output namer is a pure function; when the filename has
a usable stem it returns the downloads path stem_taskid.extension, and when
it has none it panics rather than returning any error value. -/
theorem c2_output_namer (filename output_format : String) (task_id : ℤ) :
    (∀ stem, rustFileStem filename = some stem →
      generate_output_filepath filename output_format task_id =
        .named ("downloads/" ++ stem ++ "_" ++ toString task_id ++ "." ++ output_format)) ∧
    (rustFileStem filename = none →
      generate_output_filepath filename output_format task_id = .panicked) := by
  constructor
  · intro stem hs
    unfold generate_output_filepath
    rw [hs]
  · intro hn
    unfold generate_output_filepath
    rw [hn]

/-- C2 witness: concrete run of the amended theorem on photo.png with task
id 7 and target jpg. -/
theorem c2_witness :
    generate_output_filepath "photo.png" "jpg" 7 = .named "downloads/photo_7.jpg" := by
  have h := (c2_output_namer "photo.png" "jpg" 7).1 "photo" (by decide)
  rw [h]
  decide

/-! ## Claim C3 -/

/-- C3 counterexample: a successful concrete conversion whose trace shows
the output re-opened but never decoded; the claimed re-decode of the
freshly written output does not happen. -/
theorem c3_counterexample :
    (convert_image [("uploads/in.png", .image "png" ⟨8, 8, 0⟩)] "uploads/in.png" "png"
        "downloads/in_1.png").1 = .ok () ∧
    Ev.openOutput ∈ (convert_image [("uploads/in.png", .image "png" ⟨8, 8, 0⟩)]
        "uploads/in.png" "png" "downloads/in_1.png").2.2 ∧
    Ev.decodeOutput ∉ (convert_image [("uploads/in.png", .image "png" ⟨8, 8, 0⟩)]
        "uploads/in.png" "png" "downloads/in_1.png").2.2 := by
  refine ⟨rfl, by decide, by decide⟩

/-- C3 (amended): after the encode step succeeds convert re-opens the
freshly written output as its validation step but does not decode it: every
successful run carries the open-output event and no decode-output event in
its trace. -/
theorem c3_validation_opens_only (fs : FS) (input fmt output : String)
    (hok : (convert_image fs input fmt output).1 = .ok ()) :
    Ev.openOutput ∈ (convert_image fs input fmt output).2.2 ∧
    Ev.decodeOutput ∉ (convert_image fs input fmt output).2.2 := by
  unfold convert_image at hok ⊢
  revert hok
  cases hin : lookupFile fs input with
  | none =>
      intro hok
      simp at hok
  | some fd =>
      cases hdec : decodeFile fd with
      | none =>
          intro hok
          simp [hdec] at hok
      | some b =>
          by_cases hsup : fmt ∈ supportedFormats
          · by_cases hico : fmt = "ico"
            · have hsup2 : "ico" ∈ supportedFormats := by decide
              simp [hdec, hico, hsup2, lookupFile_setFile_self]
            · simp [hdec, hico, hsup, lookupFile_setFile_self]
          · intro hok
            simp [hdec, hsup] at hok

/-- C3 witness: concrete run of the amended theorem on a gif conversion. -/
theorem c3_witness :
    Ev.openOutput ∈ (convert_image [("uploads/b.png", .image "png" ⟨5, 9, 3⟩)]
        "uploads/b.png" "gif" "downloads/b_2.gif").2.2 ∧
    Ev.decodeOutput ∉ (convert_image [("uploads/b.png", .image "png" ⟨5, 9, 3⟩)]
        "uploads/b.png" "gif" "downloads/b_2.gif").2.2 :=
  c3_validation_opens_only [("uploads/b.png", .image "png" ⟨5, 9, 3⟩)] "uploads/b.png"
    "gif" "downloads/b_2.gif" rfl

/-! ## Claim C4 -/

/-- C4 counterexample: the task counter is an i32, so the allocation number
2147483648 issues the id -2147483648, which lies outside the claimed id set
of the first 2147483648 allocations. -/
theorem c4_counterexample :
    (-2147483648 : ℤ) ∈ allocIds 2147483648 ∧
    (-2147483648 : ℤ) ∉ Finset.Icc (1 : ℤ) 2147483648 := by
  constructor
  · unfold allocIds
    apply List.mem_map.mpr
    refine ⟨2147483647, List.mem_range.mpr (by norm_num), ?_⟩
    show (next_id (counterAfter 2147483647)).2 = -2147483648
    rw [counterAfter_eq]
    show toI32 (toI32 (2147483647 : Nat) + 1) = -2147483648
    rw [toI32_toI32_add_one]
    unfold toI32
    decide
  · simp [Finset.mem_Icc]

/-- C4 (amended): starting from the initial counter 0, every sequence of N
allocations with N at most 2147483647 issues exactly the ids 1 to N, in
increasing order; past that bound the i32 counter overflows. -/
theorem c4_ids_contiguous (n : Nat) (hn : n ≤ 2147483647) :
    allocIds n = (List.range n).map (fun (k : Nat) => (k : ℤ) + 1) := by
  unfold allocIds
  apply List.map_congr_left
  intro k hk
  have hk2 : k < n := List.mem_range.mp hk
  show (next_id (counterAfter k)).2 = (k : ℤ) + 1
  rw [counterAfter_eq]
  show toI32 (toI32 (k : ℤ) + 1) = (k : ℤ) + 1
  rw [toI32_toI32_add_one]
  apply toI32_eq_self
  · omega
  · omega

/-- C4 witness: the first three allocations issue the ids 1, 2, 3. -/
theorem c4_witness : allocIds 3 = [1, 2, 3] := by
  have h := c4_ids_contiguous 3 (by norm_num)
  rw [h]
  decide

/-! ## Claim C5 -/

/-- C5 counterexample: converting a 128 by 128 image to ico upscales it to
256 by 256, beyond its original dimensions, contradicting the claimed
no-upscaling thumbnail semantics. -/
theorem c5_counterexample :
    thumbnail ⟨128, 128, 0⟩ 256 256 = ⟨256, 256, 0⟩ ∧ (128 : Nat) < 256 ∧
    (convert_image [("uploads/a.png", .image "png" ⟨128, 128, 0⟩)] "uploads/a.png" "ico"
        "downloads/a_1.ico").2.1 =
      [("downloads/a_1.ico", .image "ico" ⟨256, 256, 0⟩),
       ("uploads/a.png", .image "png" ⟨128, 128, 0⟩)] := by
  refine ⟨thumbnail_128, by norm_num, ?_⟩
  have h : (convert_image [("uploads/a.png", .image "png" ⟨128, 128, 0⟩)] "uploads/a.png"
      "ico" "downloads/a_1.ico").2.1 =
      [("downloads/a_1.ico", .image "ico" (thumbnail ⟨128, 128, 0⟩ 256 256)),
       ("uploads/a.png", .image "png" ⟨128, 128, 0⟩)] := rfl
  rw [h, thumbnail_128]

/-- C5 (amended): when the target format is ico the decoded bitmap is
resized with thumbnail semantics to the maximum size fitting a 256 by 256
box before encoding, so both output dimensions are at most 256 (small
inputs are upscaled to the box); for every other supported format the
bitmap is encoded unchanged. -/
theorem c5_ico_resize (fs : FS) (input output fmt : String) (b : Bitmap)
    (hw : 1 ≤ b.width) (hh : 1 ≤ b.height)
    (hdec : (lookupFile fs input).bind decodeFile = some b) :
    (fmt = "ico" →
      (convert_image fs input fmt output).2.1 =
        setFile fs output (.image "ico" (thumbnail b 256 256)) ∧
      (thumbnail b 256 256).width ≤ 256 ∧ (thumbnail b 256 256).height ≤ 256) ∧
    (fmt ≠ "ico" → fmt ∈ supportedFormats →
      (convert_image fs input fmt output).2.1 = setFile fs output (.image fmt b)) := by
  obtain ⟨fd, hin, hfd⟩ : ∃ fd, lookupFile fs input = some fd ∧ decodeFile fd = some b := by
    cases hin2 : lookupFile fs input with
    | none => rw [hin2] at hdec; cases hdec
    | some fd =>
        rw [hin2, Option.some_bind] at hdec
        exact ⟨fd, rfl, hdec⟩
  constructor
  · intro hico
    subst hico
    have hsup : "ico" ∈ supportedFormats := by decide
    have hdim := thumbnail_le b hw hh
    simp [convert_image, hin, hfd, hsup, lookupFile_setFile_self, hdim.1, hdim.2]
  · intro hne hsup
    simp [convert_image, hin, hfd, hne, hsup, lookupFile_setFile_self]

/-- C5 witness: concrete run of the amended theorem on a 640 by 480 input
converted to ico. -/
theorem c5_witness :
    (convert_image [("uploads/a.png", .image "png" ⟨640, 480, 0⟩)] "uploads/a.png" "ico"
        "downloads/a_1.ico").2.1 =
      setFile [("uploads/a.png", .image "png" ⟨640, 480, 0⟩)] "downloads/a_1.ico"
        (.image "ico" (thumbnail ⟨640, 480, 0⟩ 256 256)) ∧
    (thumbnail ⟨640, 480, 0⟩ 256 256).width ≤ 256 ∧
    (thumbnail ⟨640, 480, 0⟩ 256 256).height ≤ 256 :=
  (c5_ico_resize [("uploads/a.png", .image "png" ⟨640, 480, 0⟩)] "uploads/a.png"
    "downloads/a_1.ico" "ico" ⟨640, 480, 0⟩ (by decide) (by decide) rfl).1 rfl

/-! ## Claim C6 -/

/-- C6: a multipart body containing a part without a filename makes the
request fail with the bad-request no-filename response, whatever the other
parts are, and leaves the task counter unchanged. -/
theorem c6_no_filename (counter : ℤ) (fs : FS) (parts : List Part) (fmt : String)
    (h : ∃ p ∈ parts, p.filename = none) :
    (convert_image_endpoint counter fs parts fmt).1 =
      .resp (.badRequest "No filename provided in the request") ∧
    (convert_image_endpoint counter fs parts fmt).2.1 = counter := by
  unfold convert_image_endpoint
  have herr := writeParts_err parts fs none "" h
  rcases hw : writeParts fs none "" parts with ⟨fs1, res⟩
  rw [hw] at herr
  simp only at herr
  rw [herr]
  exact ⟨rfl, rfl⟩

/-- C6 witness: concrete request whose second part has no filename; the
counter 7 is returned unchanged. -/
theorem c6_witness :
    (convert_image_endpoint 7 [] [⟨some "a.png", .raw [1]⟩, ⟨none, .raw [2]⟩] "png").1 =
      .resp (.badRequest "No filename provided in the request") ∧
    (convert_image_endpoint 7 [] [⟨some "a.png", .raw [1]⟩, ⟨none, .raw [2]⟩] "png").2.1 = 7 :=
  c6_no_filename 7 [] [⟨some "a.png", .raw [1]⟩, ⟨none, .raw [2]⟩] "png"
    ⟨⟨none, .raw [2]⟩, by decide, rfl⟩

/-! ## Claim C7 -/

/-- C7 counterexample: a multipart body made of a single part without a
filename yields no file-bearing part at all, yet the request fails with the
no-filename reason, not the claimed no-file-uploaded reason. -/
theorem c7_counterexample :
    (convert_image_endpoint 0 [] [⟨none, .raw [0]⟩] "png").1 =
      .resp (.badRequest "No filename provided in the request") ∧
    EndpointOutcome.resp (.badRequest "No filename provided in the request") ≠
      .resp (.badRequest "No file uploaded") := by
  constructor
  · rfl
  · decide

/-- C7 (amended): a multipart body that yields no parts at all fails with
the bad-request no-file-uploaded response, no conversion is attempted and
the counter and filesystem are unchanged; a body whose parts carry no
filename instead fails earlier with the no-filename response, also leaving
the counter unchanged. -/
theorem c7_no_file (counter : ℤ) (fs : FS) (fmt : String) (p : Part) (rest : List Part)
    (hall : ∀ q ∈ p :: rest, q.filename = none) :
    convert_image_endpoint counter fs [] fmt =
      (.resp (.badRequest "No file uploaded"), counter, fs) ∧
    (convert_image_endpoint counter fs (p :: rest) fmt).1 =
      .resp (.badRequest "No filename provided in the request") ∧
    (convert_image_endpoint counter fs (p :: rest) fmt).2.1 = counter := by
  have hp : p.filename = none := hall p (List.mem_cons_self p rest)
  refine ⟨rfl, ?_, ?_⟩
  · simp [convert_image_endpoint, writeParts, hp]
  · simp [convert_image_endpoint, writeParts, hp]

/-- C7 witness: concrete runs at counter 3: the empty body and a body with
one filename-less part. -/
theorem c7_witness :
    convert_image_endpoint 3 [] [] "gif" =
      (.resp (.badRequest "No file uploaded"), 3, []) ∧
    (convert_image_endpoint 3 [] [⟨none, .raw []⟩] "gif").1 =
      .resp (.badRequest "No filename provided in the request") ∧
    (convert_image_endpoint 3 [] [⟨none, .raw []⟩] "gif").2.1 = 3 :=
  c7_no_file 3 [] "gif" ⟨none, .raw []⟩ [] (by decide)

/-! ## Claim C8 -/

/-- C8: the download resolver never mutates storage, returns not-found
exactly when the joined path has no file, and returns the stored bytes when
it does. -/
theorem c8_download_resolver (fs : FS) (name : String) :
    (serve_converted_image fs name).2 = fs ∧
    ((serve_converted_image fs name).1 = .notFound ↔
      lookupFile fs ("downloads/" ++ name) = none) ∧
    (∀ d, lookupFile fs ("downloads/" ++ name) = some d →
      (serve_converted_image fs name).1 = .file d) := by
  unfold serve_converted_image
  cases h : lookupFile fs ("downloads/" ++ name) with
  | none => simp [h]
  | some d => simp [h]

/-- C8 witness: concrete run on a one-file store holding downloads/cat_1.jpg. -/
theorem c8_witness :
    (serve_converted_image [("downloads/cat_1.jpg", .raw [7])] "cat_1.jpg").2 =
      [("downloads/cat_1.jpg", .raw [7])] ∧
    (serve_converted_image [("downloads/cat_1.jpg", .raw [7])] "cat_1.jpg").1 =
      .file (.raw [7]) :=
  ⟨(c8_download_resolver [("downloads/cat_1.jpg", .raw [7])] "cat_1.jpg").1,
   (c8_download_resolver [("downloads/cat_1.jpg", .raw [7])] "cat_1.jpg").2.2 (.raw [7]) rfl⟩

/-! ## Claim C9 -/

/-- C9: the task counter is an i32; below its maximum 2147483647 an
allocation issues the previous value plus one, and the allocation at the
maximum wraps to -2147483648 instead of continuing upward. -/
theorem c9_i32_overflow (c : ℤ) (h0 : 0 ≤ c) (h1 : c < 2147483647) :
    (next_id c).2 = c + 1 ∧
    (next_id 2147483647).2 = -2147483648 ∧
    (next_id 2147483647).2 < 2147483647 := by
  refine ⟨?_, ?_, ?_⟩
  · show toI32 (c + 1) = c + 1
    exact toI32_eq_self (by omega) (by omega)
  · show toI32 (2147483647 + 1) = -2147483648
    unfold toI32
    decide
  · show toI32 (2147483647 + 1) < 2147483647
    unfold toI32
    decide

/-- C9 witness: concrete run at counter 5. -/
theorem c9_witness :
    (next_id 5).2 = 5 + 1 ∧
    (next_id 2147483647).2 = -2147483648 ∧
    (next_id 2147483647).2 < 2147483647 :=
  c9_i32_overflow 5 (by norm_num) (by norm_num)

/-! ## Claim C10 -/

/-- C10: when every part of the body carries a filename, each part is
written under the uploads root in order (later same-named parts overwrite
earlier ones), and the conversion stage runs on the last part only: its
uploads path and its original filename feed the converter and the output
namer. -/
theorem c10_last_part_wins (counter : ℤ) (fs : FS) (parts : List Part) (fmt : String)
    (pl : Part) (nm : String) (hlast : parts.getLast? = some pl)
    (hall : ∀ p ∈ parts, (p.filename).isSome) (hnm : pl.filename = some nm) :
    convert_image_endpoint counter fs parts fmt =
      afterUpload counter
        (parts.foldl (fun a p => setFile a ("uploads/" ++ (p.filename).getD "") p.content) fs)
        ("uploads/" ++ nm) nm fmt := by
  unfold convert_image_endpoint
  rw [writeParts_all_some parts fs none "" pl nm hlast hnm hall]

/-- C10 witness: a two-part body; the conversion runs on the second part
b.png while both parts are written to the uploads root. -/
theorem c10_witness :
    convert_image_endpoint 0 [] [⟨some "a.png", .raw [1]⟩, ⟨some "b.png", .raw [2]⟩] "png" =
      afterUpload 0
        (setFile (setFile [] "uploads/a.png" (.raw [1])) "uploads/b.png" (.raw [2]))
        "uploads/b.png" "b.png" "png" :=
  c10_last_part_wins 0 [] [⟨some "a.png", .raw [1]⟩, ⟨some "b.png", .raw [2]⟩] "png"
    ⟨some "b.png", .raw [2]⟩ "b.png" rfl (by decide) rfl

end ImgService
